import Mathlib

/-!
Shallow embedding of the `qr_code_bot` Telegram bot (src/main.py and the
URL-only variants src/main2.py, src/main_ru.py).

The dialog state machine, subscription gate, decode-with-inversion pipeline,
message handlers and the polling loop are translated from src/main.py.
The external QR libraries (`qrcode`, `pyzbar`, `cv2`) are not part of the
repository; their behaviour is modelled from the spec (sections 4.1 and 4.2)
at the level of symbols embedded in a raster image, while everything the
repository's own code does with them (color mapping, capacity, grayscale
load, inversion retry) is embedded faithfully.
-/

namespace QRBot

/-- The FSM states of `QRCodeStates` in src/main.py: waiting for the
subscription check, waiting for text/photo input, waiting for a color
choice. -/
inductive QRState where
  | waitingForSubscriptionCheck
  | waitingForInput
  | waitingForColor
deriving DecidableEq, Repr

/-- The per-user aiogram `FSMContext` storage: an optional current state and
the state data dict, of which the only key src/main.py uses is `"text"`
(the pending payload). A fresh session has `state = none` and no data. -/
structure FSMData where
  state : Option QRState
  text : Option String
deriving DecidableEq, Repr

/-- Chat-member statuses returned by `bot.get_chat_member`. -/
inductive ChatMemberStatus where
  | member
  | administrator
  | creator
  | left
  | kicked
  | restricted
deriving DecidableEq, Repr

/-- The exception classes distinguished by src/main.py's handlers:
`TelegramBadRequest` versus any other exception. -/
inductive TgError where
  | badRequest
  | other
deriving DecidableEq, Repr

/-- The `logging.error` reports emitted by `is_user_subscribed`:
the distinct chat-not-found (configuration) report of the
`TelegramBadRequest` branch, and the generic unexpected-error report. -/
inductive LogEntry where
  | chatNotFound
  | unexpected
deriving DecidableEq, Repr

/-- src/main.py `is_user_subscribed` (lines 68-93): the result of the
`get_chat_member` call is the input; returns the subscription verdict
together with the error reports logged. On success the verdict is whether
the status is member, administrator or creator; on `TelegramBadRequest`
it logs the distinct configuration report and returns false; on any other
exception it logs the generic report and returns false. -/
def is_user_subscribed (q : Except TgError ChatMemberStatus) :
    Bool × List LogEntry :=
  match q with
  | .ok s => (s == .member || s == .administrator || s == .creator, [])
  | .error .badRequest => (false, [.chatNotFound])
  | .error .other => (false, [.unexpected])

/-- Two-color palette used by `make_image` in src/main.py. -/
inductive Color where
  | white
  | black
deriving DecidableEq, Repr

/-- Modelled from the spec (section 4.2): a grayscale raster image abstracted
to the list of QR symbols it contains, each a payload together with its
polarity — `true` when the symbol's modules are dark on a light
background (the orientation a scanner detects). -/
structure QRImage where
  symbols : List (String × Bool)
deriving DecidableEq, Repr

/-- Modelled from the spec (section 4.2, `pyzbar.decode`): the scanner
returns, in detection order, the payloads of the dark-on-light symbols;
light-on-dark symbols are not detected. -/
def scan (img : QRImage) : List String :=
  (img.symbols.filter (fun s => s.2)).map (fun s => s.1)

/-- Modelled from the spec (section 4.2, `cv2.bitwise_not`): inverting every
pixel intensity flips the polarity of every symbol in the image. -/
def bitwise_not (img : QRImage) : QRImage :=
  ⟨img.symbols.map (fun s => (s.1, !s.2))⟩

/-- The number of bytes of the UTF-8 encoding of a string
(`text.encode('utf-8')` in src/main.py). -/
def utf8_len (s : String) : Nat :=
  s.data.foldl
    (fun n c =>
      n + (if c.val < 0x80 then 1
           else if c.val < 0x800 then 2
           else if c.val < 0x10000 then 3
           else 4))
    0

/-- Byte capacity of a version-40 QR symbol in byte mode at error-correction
level L: with `fit=True` the `qrcode` library grows the symbol up to
version 40 and raises `DataOverflow` beyond this size. -/
def qrCapacityL : Nat := 2953

/-- The in-memory QR image built by `qr.make_image(fill_color, back_color)`
in src/main.py: the payload plus the chosen module and background
colors. -/
structure RenderedQR where
  payload : String
  fill : Color
  back : Color
deriving DecidableEq, Repr

/-- Modelled from the spec (sections 4.1-4.2): the raster content of a
rendered QR image after the JPEG save and grayscale reload of
src/main.py — one symbol, dark-on-light exactly when the modules are
black on a white background. -/
def RenderedQR.toImage (r : RenderedQR) : QRImage :=
  ⟨[(r.payload, r.fill == Color.black && r.back == Color.white)]⟩

/-- src/main.py lines 282-296, the `qrcode` render: succeeds when the
payload's UTF-8 encoding fits the auto-fit capacity (spec:
`PayloadTooLarge` / `DataOverflow` otherwise, caught by the handler's
`except`). The symbol rendering itself is modelled from the spec. -/
def make_qr_image (payload : String) (fill back : Color) :
    Option RenderedQR :=
  if utf8_len payload ≤ qrCapacityL then some ⟨payload, fill, back⟩ else none

/-- One inline keyboard button (`InlineKeyboardButton`): caption plus
either a URL or a callback-data token. -/
structure InlineButton where
  caption : String
  url : Option String
  callback_data : Option String
deriving DecidableEq, Repr

/-- An outbound message: a text with an (optionally empty) inline keyboard,
or a photo of a rendered QR image. -/
inductive OutMessage where
  | text (body : String) (keyboard : List (List InlineButton))
  | photo (img : RenderedQR)
deriving DecidableEq, Repr

/-- Welcome text of `cmd_start` for subscribed users. -/
def welcomeText : String :=
  "Добро пожаловать! Я умею создавать QR-коды из URL или текста, " ++
  "а так же читать QR-коды. Отправьте мне URL/текст для " ++
  "генерации QR-кода или изображение с QR-кодом для декодирования."

/-- Subscribe prompt of `cmd_start` for unsubscribed users. -/
def subscribeText : String :=
  "Для использования бота, пожалуйста, подпишитесь на наш канал."

/-- Operator-facing configuration-error reply of `cmd_start`. -/
def configErrorText : String :=
  "Произошла ошибка конфигурации бота. Пожалуйста, сообщите администратору: " ++
  "не удается найти целевой канал для проверки подписки. " ++
  "Возможно, неверно указан ID канала или у бота нет прав."

/-- Generic error reply of `cmd_start`'s catch-all branch. -/
def unexpectedStartErrorText : String :=
  "Произошла непредвиденная ошибка. Попробуйте позже."

/-- Color-choice prompt of `process_text`. -/
def chooseColorText : String :=
  "Пожалуйста, выберите цвет фона для QR-кода:"

/-- Reply template of `process_photo` for each decoded symbol. -/
def recognizedPrefix : String := "Распознанный текст: "

/-- Reply of `process_photo` when neither decode attempt finds a symbol. -/
def qrNotFoundText : String := "QR-код не найден на изображении."

/-- Failure reply of `process_photo`'s exception handler. -/
def photoErrorText : String :=
  "Извините, что-то пошло не так при обработке изображения."

/-- Trailing prompt sent by `process_photo` after the state reset. -/
def promptAfterPhotoText : String :=
  "Чтобы сгенерировать QR-код, отправьте мне URL/текст. " ++
  "Чтобы прочитать QR-код - отправьте мне изображение."

/-- Failure reply of `process_color_choice`'s exception handler. -/
def qrGenErrorText : String :=
  "Извините, что-то пошло не так при генерации QR-кода."

/-- Trailing prompt sent by `process_color_choice` after the state reset. -/
def promptAfterColorText : String :=
  "Чтобы сгенерировать еще один QR-код, отправьте мне URL/текст. " ++
  "Чтобы прочитать QR-код - отправьте мне изображение."

/-- The external Telegram collaborator as seen by src/main.py: the
`get_chat_member` outcome per user id, the `get_chat` outcome (the
channel's `invite_link` field, possibly absent), and the
`export_chat_invite_link` outcome. -/
structure TgEnv where
  membership : Nat → Except TgError ChatMemberStatus
  chatInviteLink : Except TgError (Option String)
  exportInviteLink : Except TgError String

/-- src/main.py lines 125-129: fetch the channel and take its invite link,
minting a new one when the channel has none; an exception from either
call propagates to `cmd_start`'s handlers. -/
def resolve_invite_link (env : TgEnv) : Except TgError String :=
  match env.chatInviteLink with
  | .error e => .error e
  | .ok (some link) => .ok link
  | .ok none => env.exportInviteLink

/-- The inline keyboard of the subscribe prompt (src/main.py lines 132-141):
a URL button to the invite link and a "check subscription" callback
button. -/
def subscribeKeyboard (link : String) : List (List InlineButton) :=
  [[⟨"Подписаться", some link, none⟩],
   [⟨"Проверить подписку", none, some "check_subscription"⟩]]

/-- src/main.py `cmd_start` (lines 98-159): if the user is subscribed, send
the welcome text and set the state to waiting-for-input (the data dict is
untouched); otherwise resolve the invite link and send the subscribe
prompt, setting the state to waiting-for-subscription-check; an exception
while resolving sends the configuration-error reply (`TelegramBadRequest`)
or the generic reply (anything else) and leaves state and data as they
were. -/
def cmd_start (env : TgEnv) (userId : Nat) (data : FSMData) :
    List OutMessage × FSMData :=
  if (is_user_subscribed (env.membership userId)).1 then
    ([.text welcomeText []], { data with state := some .waitingForInput })
  else
    match resolve_invite_link env with
    | .ok link =>
        ([.text subscribeText (subscribeKeyboard link)],
         { data with state := some .waitingForSubscriptionCheck })
    | .error .badRequest => ([.text configErrorText []], data)
    | .error .other => ([.text unexpectedStartErrorText []], data)

/-- An aiogram callback query: the id of the user who pressed the button,
the id of the author of the message the button is attached to (for a
bot-sent keyboard this is the bot itself, not the presser), and the
button's callback-data token. -/
structure CallbackQuery where
  fromUser : Nat
  messageFromUser : Nat
  data : String
deriving DecidableEq, Repr

/-- src/main.py `check_subscription_callback` (lines 162-174): re-runs
`cmd_start` on `callback_query.message` — so the user id `cmd_start`
sees is `message.from_user` of the button's host message (the bot),
not the pressing user. -/
def check_subscription_callback (env : TgEnv) (cb : CallbackQuery)
    (data : FSMData) : List OutMessage × FSMData :=
  cmd_start env cb.messageFromUser data

/-- The inline keyboard offered by `process_text` (src/main.py
lines 192-195): light and dark callback buttons. -/
def colorKeyboard : List (List InlineButton) :=
  [[⟨"Светлый", none, some "light"⟩],
   [⟨"Темный", none, some "dark"⟩]]

/-- src/main.py `process_text` (lines 177-202): store the message text in
the state data, offer the color choice and move to waiting-for-color. -/
def process_text (t : String) (data : FSMData) : List OutMessage × FSMData :=
  ([.text chooseColorText colorKeyboard],
   { data with state := some .waitingForColor, text := some t })

/-- src/main.py lines 229-235, the decode pipeline of `process_photo`:
scan the grayscale image as given; when that finds nothing, invert the
pixel intensities and scan once more. -/
def decodeQR (img : QRImage) : List String :=
  let decoded := scan img
  if decoded.isEmpty then scan (bitwise_not img) else decoded

/-- src/main.py `process_photo` (lines 205-259). The input is the outcome
of the download-and-grayscale-decode step (`get_file`, `download_file`,
`cv2.imdecode` with `IMREAD_GRAYSCALE`); any exception there is caught
and answered with the failure reply. Otherwise each decoded payload is
answered, or the not-found reply when both scan attempts are empty.
Finally the state data is cleared, the trailing prompt sent, and the
state set back to waiting-for-input. -/
def process_photo (fetch : Except Unit QRImage) (_data : FSMData) :
    List OutMessage × FSMData :=
  let tryMsgs :=
    match fetch with
    | .error _ => [OutMessage.text photoErrorText []]
    | .ok img =>
        let decoded := decodeQR img
        if decoded.isEmpty then [OutMessage.text qrNotFoundText []]
        else decoded.map (fun t => OutMessage.text (recognizedPrefix ++ t) [])
  (tryMsgs ++ [OutMessage.text promptAfterPhotoText []],
   ⟨some .waitingForInput, none⟩)

/-- src/main.py `process_color_choice` (lines 262-323): read the callback
token and the stored text; render the QR with background white and
modules black when the token equals "light", and background black and
modules white for every other token; send the photo. A missing stored
text (`text.encode` on `None`) or a too-large payload raises inside the
`try` and is answered with the failure reply instead. Finally the state
data is cleared, the trailing prompt sent, and the state set back to
waiting-for-input. -/
def process_color_choice (cb : CallbackQuery) (data : FSMData) :
    List OutMessage × FSMData :=
  let color := cb.data
  let tryMsgs :=
    match data.text with
    | none => [OutMessage.text qrGenErrorText []]
    | some t =>
        let back := if color = "light" then Color.white else Color.black
        let fill := if color = "light" then Color.black else Color.white
        match make_qr_image t fill back with
        | none => [OutMessage.text qrGenErrorText []]
        | some img => [OutMessage.photo img]
  (tryMsgs ++ [OutMessage.text promptAfterColorText []],
   ⟨some .waitingForInput, none⟩)

/-- The encoder entry point as invoked by `process_color_choice`: the color
mapping of src/main.py lines 291-296 applied to a payload and a raw
callback token. -/
def encodeQR (payload : String) (colorToken : String) : Option RenderedQR :=
  let back := if colorToken = "light" then Color.white else Color.black
  let fill := if colorToken = "light" then Color.black else Color.white
  make_qr_image payload fill back

/-- An inbound Telegram event as distinguished by the handler filters of
src/main.py: the /start command, a text message, a photo message (carrying
the outcome of its download), or a callback-button press. -/
inductive Event where
  | startCmd (userId : Nat)
  | textMsg (t : String)
  | photoMsg (fetch : Except Unit QRImage)
  | callback (cb : CallbackQuery)

/-- The aiogram dispatcher of src/main.py, reified from the handler
registrations: `cmd_start` fires on /start in any state;
`process_text` and `process_photo` fire only in waiting-for-input;
`check_subscription_callback` fires on the "check_subscription" token in
waiting-for-subscription-check; `process_color_choice` fires on any
callback in waiting-for-color. `none` means no handler matched and the
update is ignored. -/
def dispatch (env : TgEnv) (ev : Event) (data : FSMData) :
    Option (List OutMessage × FSMData) :=
  match ev with
  | .startCmd uid => some (cmd_start env uid data)
  | .textMsg t =>
      if data.state = some .waitingForInput then some (process_text t data)
      else none
  | .photoMsg f =>
      if data.state = some .waitingForInput then some (process_photo f data)
      else none
  | .callback cb =>
      if data.state = some .waitingForSubscriptionCheck ∧
          cb.data = "check_subscription" then
        some (check_subscription_callback env cb data)
      else if data.state = some .waitingForColor then
        some (process_color_choice cb data)
      else none

/-- Run a sequence of events for one user through the dispatcher,
threading the session data; unmatched events leave it unchanged. -/
def runEvents (env : TgEnv) (data : FSMData) : List Event → FSMData
  | [] => data
  | ev :: rest =>
      match dispatch env ev data with
      | none => runEvents env data rest
      | some (_, d) => runEvents env d rest

/-- The possible outcomes of one `dp.start_polling(bot)` call, as
distinguished by the `except` clauses of `main` in src/main.py:
`TelegramNetworkError`, `asyncio.CancelledError` (the shutdown signal),
or any other exception. -/
inductive PollOutcome where
  | networkError
  | cancelled
  | otherError
deriving DecidableEq, Repr

/-- How a run of the `main` loop ended: a clean break after the shutdown
signal, an uncaught exception propagating out, or still polling after
the given outcomes. -/
inductive LoopResult where
  | stoppedByUser
  | crashed
  | polling
deriving DecidableEq, Repr

/-- src/main.py `main` (lines 328-347) over a list of successive polling
outcomes: a network error logs, sleeps 5 seconds (recorded in the second
component) and retries; the shutdown signal breaks the loop; any other
exception is uncaught and crashes it. -/
def mainLoop : List PollOutcome → LoopResult × List Nat
  | [] => (.polling, [])
  | .networkError :: rest =>
      let r := mainLoop rest
      (r.1, 5 :: r.2)
  | .cancelled :: _ => (.stoppedByUser, [])
  | .otherError :: _ => (.crashed, [])

/-- A healthy environment: every user is a member, the channel resolves and
already has an invite link. -/
def envGood : TgEnv :=
  ⟨fun _ => .ok .member, .ok (some "https://t.me/chan"),
   .ok "https://t.me/chan"⟩

/-- A misconfigured environment: the membership query reports the user as
having left, and fetching the channel raises `TelegramBadRequest`. -/
def envBad : TgEnv :=
  ⟨fun _ => .ok .left, .error .badRequest, .error .badRequest⟩

/-- An environment separating the pressing user from the bot: user 42 is a
member, every other identity (in particular the bot, id 99, the author of
the message carrying the inline keyboard) has left the channel; the channel
resolves with an invite link. -/
def envC7 : TgEnv :=
  ⟨fun uid => if uid = 42 then .ok .member else .ok .left,
   .ok (some "https://t.me/chan"), .ok "https://t.me/chan"⟩

end QRBot

namespace Main2

open QRBot

/-- `QRCodeStates` of the URL-only variants (src/main2.py line 53 and
src/main_ru.py line 31): waiting for a URL (or photo) and waiting for a
color choice. -/
inductive URLState where
  | waitingForUrlOrPhoto
  | waitingForColor
deriving DecidableEq, Repr

/-- The `FSMContext` storage of the URL-only variants: the state and the
`"url"` data key. -/
structure FSMData2 where
  state : Option URLState
  url : Option String
deriving DecidableEq, Repr

/-- Invalid-URL reply of `process_url` in src/main2.py and src/main_ru.py. -/
def notUrlText : String :=
  "Это не похоже на URL. Пожалуйста, отправьте URL в виде текста, " ++
  "начинающийся с «http://» или «https://»."

/-- Python `str.startswith`: the pattern's characters are an initial
segment of the string's characters. -/
def startswith (s pat : String) : Bool :=
  pat.data.isPrefixOf s.data

/-- src/main2.py `process_url` (lines 86-120, identically src/main_ru.py
lines 42-57): when the text is empty or starts with neither "http://"
nor "https://", reply the invalid-URL message and return with state and
data untouched; otherwise store the URL, offer the color choice and move
to waiting-for-color. -/
def process_url (t : String) (data : FSMData2) :
    List OutMessage × FSMData2 :=
  if t.isEmpty || !(startswith t "http://" || startswith t "https://") then
    ([.text notUrlText []], data)
  else
    ([.text chooseColorText colorKeyboard],
     { data with state := some .waitingForColor, url := some t })

end Main2

namespace QRBot

/-- C1: for every valid UTF-8 payload P that fits within encodable capacity
and every color token C in {"light", "dark"}, decoding the image produced by
encoding P with color C yields exactly the one-element sequence [P]. -/
theorem c1_round_trip (P c : String) (hc : c = "light" ∨ c = "dark")
    (r : RenderedQR) (henc : encodeQR P c = some r) :
    decodeQR r.toImage = [P] := by
  have hmk : ∀ fill back : Color, make_qr_image P fill back = some r →
      r = ⟨P, fill, back⟩ := by
    intro fill back h
    unfold make_qr_image at h
    split at h
    · exact (Option.some_inj.mp h).symm
    · exact absurd h (by simp)
  rcases hc with hc | hc <;> subst hc
  · have hr := hmk Color.black Color.white (by simpa [encodeQR] using henc)
    subst hr
    simp [decodeQR, RenderedQR.toImage, scan]
  · have hr := hmk Color.white Color.black (by simpa [encodeQR] using henc)
    subst hr
    simp [decodeQR, RenderedQR.toImage, scan, bitwise_not]

theorem c1_round_trip_witness :
    ("dark" = "light" ∨ ("dark" : String) = "dark") ∧
    encodeQR "hello" "dark" = some ⟨"hello", Color.white, Color.black⟩ ∧
    decodeQR (RenderedQR.mk "hello" Color.white Color.black).toImage =
      ["hello"] :=
  ⟨Or.inr rfl, by decide,
   c1_round_trip "hello" "dark" (Or.inr rfl) _ (by decide)⟩

/-- C2: the decode pipeline first scans the grayscale image as given; iff
that finds zero symbols it inverts the pixel intensities and retries exactly
once; `process_photo` replies with the decoded sequence of whichever attempt
found something, and with the distinct "no code found" reply — not the
error reply — when both attempts find nothing. -/
theorem c2_decode_fallback (img : QRImage) (data : FSMData) :
    (scan img ≠ [] → decodeQR img = scan img) ∧
    (scan img = [] → decodeQR img = scan (bitwise_not img)) ∧
    (decodeQR img = [] →
      (process_photo (.ok img) data).1 =
        [OutMessage.text qrNotFoundText [],
         OutMessage.text promptAfterPhotoText []]) ∧
    (decodeQR img ≠ [] →
      (process_photo (.ok img) data).1 =
        (decodeQR img).map
          (fun t => OutMessage.text (recognizedPrefix ++ t) []) ++
          [OutMessage.text promptAfterPhotoText []]) ∧
    qrNotFoundText ≠ photoErrorText := by
  refine ⟨?_, ?_, ?_, ?_, by decide⟩
  · intro h
    simp [decodeQR, List.isEmpty_iff, h]
  · intro h
    simp [decodeQR, h]
  · intro h
    simp [process_photo, h]
  · intro h
    simp [process_photo, List.isEmpty_iff, h]

theorem c2_decode_fallback_witness :
    decodeQR ⟨[("x", false)]⟩ = scan (bitwise_not ⟨[("x", false)]⟩) ∧
    (process_photo (.ok ⟨[]⟩) ⟨some .waitingForInput, none⟩).1 =
      [OutMessage.text qrNotFoundText [],
       OutMessage.text promptAfterPhotoText []] :=
  ⟨(c2_decode_fallback ⟨[("x", false)]⟩ ⟨some .waitingForInput, none⟩).2.1
      (by decide),
   (c2_decode_fallback ⟨[]⟩ ⟨some .waitingForInput, none⟩).2.2.1 (by decide)⟩

/-- C3: `is_user_subscribed` returns true iff the membership query succeeds
with status member, administrator or creator; every failed query yields
false (fail closed), and the misconfiguration failure (`TelegramBadRequest`)
yields exactly one distinct configuration-error report. -/
theorem c3_fail_closed (q : Except TgError ChatMemberStatus) :
    ((is_user_subscribed q).1 = true ↔
      q = .ok .member ∨ q = .ok .administrator ∨ q = .ok .creator) ∧
    (∀ e, q = .error e → (is_user_subscribed q).1 = false) ∧
    (is_user_subscribed (.error .badRequest)).2 = [LogEntry.chatNotFound] := by
  refine ⟨?_, ?_, rfl⟩
  · rcases q with e | s
    · cases e <;> simp [is_user_subscribed]
    · cases s <;> simp [is_user_subscribed]
  · rintro e rfl
    cases e <;> rfl

theorem c3_fail_closed_witness :
    (is_user_subscribed (Except.error TgError.other)).1 = false :=
  (c3_fail_closed (Except.error TgError.other)).2.1 TgError.other rfl

/-- C4 counterexample: when `start_polling` raises an exception that is
neither `TelegramNetworkError` nor the shutdown signal, the loop is
terminated by that error — it neither keeps polling nor stops cleanly —
refuting "never terminated by any error other than an explicit shutdown
signal". -/
theorem c4_counterexample :
    mainLoop [PollOutcome.otherError] = (LoopResult.crashed, []) ∧
    LoopResult.crashed ≠ LoopResult.stoppedByUser ∧
    LoopResult.crashed ≠ LoopResult.polling := by
  refine ⟨rfl, by decide, by decide⟩

/-- C4 amended: on transient network loss the loop retries indefinitely,
sleeping a fixed 5 seconds before each resubscription; it terminates
cleanly on the shutdown signal; but an exception of any other type does
terminate it. -/
theorem c4_amended (n : Nat) (rest : List PollOutcome) :
    mainLoop (List.replicate n .networkError) =
      (.polling, List.replicate n 5) ∧
    mainLoop (List.replicate n .networkError ++ .cancelled :: rest) =
      (.stoppedByUser, List.replicate n 5) ∧
    mainLoop (List.replicate n .networkError ++ .otherError :: rest) =
      (.crashed, List.replicate n 5) := by
  induction n with
  | zero => exact ⟨rfl, rfl, rfl⟩
  | succ k ih =>
      refine ⟨?_, ?_, ?_⟩ <;>
        simp [List.replicate_succ, mainLoop, ih.1, ih.2.1, ih.2.2]

/-- C5: every exception of the encode/decode handlers is caught and answered
with a user-visible failure reply, and afterwards the session state is
waiting-for-input; no session state is terminal — the /start handler is
enabled in every state, so a session can never permanently halt. -/
theorem c5_always_recovers (data : FSMData) :
    (∀ cb, (process_color_choice cb data).2 =
      ⟨some .waitingForInput, none⟩) ∧
    (∀ cb, data.text = none →
      OutMessage.text qrGenErrorText [] ∈ (process_color_choice cb data).1) ∧
    (∀ cb t, data.text = some t → qrCapacityL < utf8_len t →
      OutMessage.text qrGenErrorText [] ∈ (process_color_choice cb data).1) ∧
    (∀ f, (process_photo f data).2 = ⟨some .waitingForInput, none⟩) ∧
    OutMessage.text photoErrorText [] ∈
      (process_photo (.error ()) data).1 ∧
    (∀ env, dispatch env (.startCmd 0) data ≠ none) := by
  refine ⟨fun cb => rfl, ?_, ?_, fun f => rfl, ?_, ?_⟩
  · intro cb h
    simp [process_color_choice, h]
  · intro cb t h hcap
    have hno : ¬ utf8_len t ≤ qrCapacityL := Nat.not_le.mpr hcap
    simp [process_color_choice, h, make_qr_image, hno]
  · simp [process_photo]
  · intro env
    simp [dispatch]

theorem c5_always_recovers_witness :
    (process_color_choice ⟨1, 2, "dark"⟩ ⟨some .waitingForColor, none⟩).2 =
      ⟨some QRState.waitingForInput, none⟩ ∧
    OutMessage.text qrGenErrorText [] ∈
      (process_color_choice ⟨1, 2, "dark"⟩ ⟨some .waitingForColor, none⟩).1 :=
  ⟨(c5_always_recovers ⟨some .waitingForColor, none⟩).1 ⟨1, 2, "dark"⟩,
   (c5_always_recovers ⟨some .waitingForColor, none⟩).2.1 ⟨1, 2, "dark"⟩ rfl⟩

/-- C6 counterexample: with an unsubscribed user and an unresolvable
channel, /start sends the configuration-error reply — no invite link, no
check button — and leaves the session state unchanged rather than setting
waiting-for-subscription-check, refuting the claim as stated. -/
theorem c6_counterexample :
    (is_user_subscribed (envBad.membership 7)).1 = false ∧
    cmd_start envBad 7 ⟨none, none⟩ =
      ([OutMessage.text configErrorText []], ⟨none, none⟩) ∧
    (⟨none, none⟩ : FSMData).state ≠
      some QRState.waitingForSubscriptionCheck := by
  refine ⟨rfl, rfl, by decide⟩

/-- C6 amended: /start with an unsubscribed user sends the subscribe prompt
with the invite-link button and the check button and sets
waiting-for-subscription-check, provided the invite link resolves; when
resolving fails the configuration-error (bad request) or generic reply is
sent and state and data are unchanged. With a subscribed user it sends the
welcome text and sets waiting-for-input. -/
theorem c6_amended (env : TgEnv) (uid : Nat) (data : FSMData) :
    ((is_user_subscribed (env.membership uid)).1 = true →
      cmd_start env uid data =
        ([OutMessage.text welcomeText []],
         { data with state := some .waitingForInput })) ∧
    ((is_user_subscribed (env.membership uid)).1 = false →
      (∀ link, resolve_invite_link env = .ok link →
        cmd_start env uid data =
          ([OutMessage.text subscribeText (subscribeKeyboard link)],
           { data with state := some .waitingForSubscriptionCheck })) ∧
      (resolve_invite_link env = .error .badRequest →
        cmd_start env uid data =
          ([OutMessage.text configErrorText []], data)) ∧
      (resolve_invite_link env = .error .other →
        cmd_start env uid data =
          ([OutMessage.text unexpectedStartErrorText []], data))) := by
  constructor
  · intro h
    simp [cmd_start, h]
  · intro h
    refine ⟨?_, ?_, ?_⟩
    · intro link hl
      simp [cmd_start, h, hl]
    · intro hl
      simp [cmd_start, h, hl]
    · intro hl
      simp [cmd_start, h, hl]

theorem c6_amended_witness :
    cmd_start envGood 1 ⟨none, none⟩ =
      ([OutMessage.text welcomeText []],
       ⟨some QRState.waitingForInput, none⟩) :=
  (c6_amended envGood 1 ⟨none, none⟩).1 rfl

/-- C7 evaluated at the failing input: the pressing user (id 42) is a
member, yet because `check_subscription_callback` re-runs the /start logic
on `callback_query.message.from_user` — the bot (id 99), which has left the
channel — the press is answered with the subscribe prompt again and the
state set to waiting-for-subscription-check, not the welcome text and
waiting-for-input the claim requires. -/
theorem c7_bug_eval :
    (is_user_subscribed (envC7.membership 42)).1 = true ∧
    check_subscription_callback envC7 ⟨42, 99, "check_subscription"⟩
        ⟨some .waitingForSubscriptionCheck, none⟩ =
      ([OutMessage.text subscribeText (subscribeKeyboard "https://t.me/chan")],
       ⟨some QRState.waitingForSubscriptionCheck, none⟩) ∧
    QRState.waitingForSubscriptionCheck ≠ QRState.waitingForInput := by
  refine ⟨rfl, rfl, by decide⟩

/-- C8 counterexample: a reachable trace violating the pending-payload
invariant — after storing a payload in waiting-for-color, a /start command
moves the session to waiting-for-input while the payload stays populated. -/
theorem c8_counterexample :
    runEvents envGood ⟨none, none⟩
        [.startCmd 1, .textMsg "hi", .startCmd 1] =
      ⟨some QRState.waitingForInput, some "hi"⟩ ∧
    QRState.waitingForInput ≠ QRState.waitingForColor := by
  refine ⟨rfl, by decide⟩

/-- C8 amended: each session has exactly one active state; the text handler
is the only one populating the pending payload (moving to
waiting-for-color), and the photo and color handlers clear it on returning
to waiting-for-input — but /start preserves the stored payload in every
branch, so the payload can outlive waiting-for-color. -/
theorem c8_amended (env : TgEnv) (data : FSMData) (t : String)
    (cb : CallbackQuery) (f : Except Unit QRImage) (uid : Nat) :
    (process_text t data).2 = ⟨some .waitingForColor, some t⟩ ∧
    (process_photo f data).2 = ⟨some .waitingForInput, none⟩ ∧
    (process_color_choice cb data).2 = ⟨some .waitingForInput, none⟩ ∧
    (cmd_start env uid data).2.text = data.text := by
  refine ⟨rfl, rfl, rfl, ?_⟩
  unfold cmd_start
  split
  · rfl
  · split <;> rfl

/-- C9: in the URL-only variant, a text that starts with neither "http://"
nor "https://" is answered with the invalid-URL reply and the session —
state and stored data alike — is left exactly as it was. -/
theorem c9_invalid_url (t : String) (data : Main2.FSMData2)
    (h : ¬(Main2.startswith t "http://" = true ∨
           Main2.startswith t "https://" = true)) :
    Main2.process_url t data =
      ([OutMessage.text Main2.notUrlText []], data) := by
  push_neg at h
  obtain ⟨h1, h2⟩ := h
  simp only [ne_eq, Bool.not_eq_true] at h1 h2
  simp [Main2.process_url, h1, h2]

theorem c9_invalid_url_witness :
    Main2.process_url "hello"
        ⟨some Main2.URLState.waitingForUrlOrPhoto, none⟩ =
      ([OutMessage.text Main2.notUrlText []],
       ⟨some Main2.URLState.waitingForUrlOrPhoto, none⟩) :=
  c9_invalid_url "hello" ⟨some Main2.URLState.waitingForUrlOrPhoto, none⟩
    (by decide)

/-- C10: in waiting-for-color the dispatcher hands every callback press to
`process_color_choice` regardless of its token (the check-subscription
handler is filtered to another state), and the color mapping compares the
token only against "light": any other token — including a stale
"check_subscription" — yields the QR rendered with black background and
white foreground. -/
theorem c10_any_token_dark (env : TgEnv) (cb : CallbackQuery) (t : String)
    (hne : cb.data ≠ "light") (hcap : utf8_len t ≤ qrCapacityL) :
    dispatch env (.callback cb) ⟨some .waitingForColor, some t⟩ =
      some ([OutMessage.photo ⟨t, Color.white, Color.black⟩,
             OutMessage.text promptAfterColorText []],
            ⟨some .waitingForInput, none⟩) := by
  simp [dispatch, process_color_choice, make_qr_image, hne, hcap]

theorem c10_any_token_dark_witness :
    dispatch envGood (.callback ⟨5, 9, "check_subscription"⟩)
        ⟨some .waitingForColor, some "hi"⟩ =
      some ([OutMessage.photo ⟨"hi", Color.white, Color.black⟩,
             OutMessage.text promptAfterColorText []],
            ⟨some QRState.waitingForInput, none⟩) :=
  c10_any_token_dark envGood ⟨5, 9, "check_subscription"⟩ "hi"
    (by decide) (by decide)

end QRBot
